import Mathlib

/-!
Verification of `bzt/resources/selenium_extras.py` (Taurus Selenium helpers).

The Python module is a thin helper layer over a WebDriver client.  We embed
its control flow shallowly:

* the page is a function `By' → String → Nat` giving, for each locator
  strategy and locator value, how many elements `driver.find_elements`
  returns;
* the driver's implicit-wait setting is threaded through explicitly as a
  `Nat` and returned alongside each result;
* Python exceptions become `Except` errors;
* wall-clock time for the polling loops is a discrete `Nat` counter: a
  `find_elements` round trip costs one tick and each sleep inside a
  `WebDriverWait` poll costs one tick.
-/

namespace SeleniumExtras

/-- The five locator strategies of `Manager.BYS` (keys of the Python dict). -/
inductive By' where
  | xpath
  | css
  | name
  | id
  | linktext
deriving DecidableEq, Repr

/-- The selenium `By` constant each strategy maps to (`By.XPATH` is the string
`"xpath"`, `By.CSS_SELECTOR` is `"css selector"`, and so on); used only where
the Python code interpolates `locator[0]` into a message. -/
def byValue : By' → String
  | By'.xpath => "xpath"
  | By'.css => "css selector"
  | By'.name => "name"
  | By'.id => "id"
  | By'.linktext => "link text"

/-- The dictionary key under which each strategy appears in `Manager.BYS`. -/
def byName : By' → String
  | By'.xpath => "xpath"
  | By'.css => "css"
  | By'.name => "name"
  | By'.id => "id"
  | By'.linktext => "linktext"

/-- Python `str.lower()` (ASCII case folding, which is all the module ever
lowercases), as a map over the character list. -/
def pyLower (s : String) : String :=
  String.mk (s.data.map Char.toLower)

/-- Python `s.startswith(p)`. -/
def pyStartsWith (s p : String) : Bool :=
  List.take p.data.length s.data == p.data

/-- Python `s.isdigit()` (for the ASCII strings this module meets): non-empty
and all digits. -/
def pyIsDigit (s : String) : Bool :=
  decide (s.data ≠ []) && s.data.all Char.isDigit

/-- The number denoted by a list of decimal digits. -/
def digitsToNat (cs : List Char) : Nat :=
  cs.foldl (fun n c => n * 10 + (c.toNat - 48)) 0

/-- Python `s.split(sep)` for a one-character separator. -/
def splitChar (sep : Char) : List Char → List (List Char)
  | [] => [[]]
  | c :: rest =>
    if c = sep then [] :: splitChar sep rest
    else
      match splitChar sep rest with
      | g :: gs => (c :: g) :: gs
      | [] => [[c]]

/-- Python `int(s)` on the digit-or-signed strings the module can feed it
(`None` models the `ValueError` of a malformed literal). -/
def pyInt : List Char → Option Int
  | '-' :: rest =>
    if rest ≠ [] ∧ rest.all Char.isDigit then some (-(digitsToNat rest : Int))
    else none
  | cs =>
    if cs ≠ [] ∧ cs.all Char.isDigit then some ((digitsToNat cs : Int))
    else none

/-- Lookup in the Python dict `Manager.BYS`; `none` models a `KeyError`. -/
def BYS (s : String) : Option By' :=
  if s = "xpath" then some By'.xpath
  else if s = "css" then some By'.css
  else if s = "name" then some By'.name
  else if s = "id" then some By'.id
  else if s = "linktext" then some By'.linktext
  else none

@[simp] theorem bys_byName (b : By') : BYS (pyLower (byName b)) = some b := by
  cases b <;> decide

/-- Errors `Manager.get_locator` can raise.  `typeError` models the Python
`TypeError` raised by `"(%s, %s)" % None` when the locator list is empty,
`keyError` the `KeyError` of an unrecognized locator type, and `notFound`
the `NoSuchElementException` naming the first locator. -/
inductive GLErr where
  | keyError
  | typeError
  | notFound (loc : By' × String)
deriving DecidableEq, Repr

/-- The `for`/`else` loop of `Manager.get_locator`.  Arguments: the page,
the stored timeout (result of `_get_timeout()`), the remaining locator
dictionaries as `(type key, value)` pairs, the `first_locator` accumulator,
and the driver's current implicit-wait setting.  Returns the raised error or
the matched locator, paired with the final implicit-wait setting. -/
def get_locator_go (page : By' → String → Nat) (timeout : Nat) :
    List (String × String) → Option (By' × String) → Nat →
      (Except GLErr (By' × String)) × Nat
  | [], none, _ => (Except.error GLErr.typeError, timeout)
  | [], some fl, _ => (Except.error (GLErr.notFound fl), timeout)
  | (ty, v) :: rest, none, w =>
    match BYS (pyLower ty) with
    | none => (Except.error GLErr.keyError, w)
    | some b =>
      if 0 < page b v then (Except.ok (b, v), timeout)
      else get_locator_go page timeout rest (some (b, v)) w
  | (ty, v) :: rest, some fl, _ =>
    match BYS (pyLower ty) with
    | none => (Except.error GLErr.keyError, 0)
    | some b =>
      if 0 < page b v then (Except.ok (b, v), timeout)
      else get_locator_go page timeout rest (some fl) 0

/-- `Manager.get_locator(locators, ignore_implicit_wait)`.  `w0` is the
driver's implicit-wait setting on entry; if `ignore_implicit_wait` is set the
code first calls `driver.implicitly_wait(0)`. -/
def get_locator (page : By' → String → Nat) (timeout : Nat)
    (locators : List (String × String)) (ignore_implicit_wait : Bool)
    (w0 : Nat) : (Except GLErr (By' × String)) × Nat :=
  get_locator_go page timeout locators none (if ignore_implicit_wait then 0 else w0)

/-- Render a strategy-typed locator list as the `(type key, value)` dictionary
list the Python function receives. -/
def mkLocs (ls : List (By' × String)) : List (String × String) :=
  ls.map (fun p => (byName p.1, p.2))

/-- Specification-side helper: the first locator in list order that matches at
least one element on the page. -/
def firstMatching (page : By' → String → Nat) (ls : List (By' × String)) :
    Option (By' × String) :=
  ls.find? (fun p => decide (0 < page p.1 p.2))

theorem get_locator_go_some (page : By' → String → Nat) (timeout : Nat)
    (ls : List (By' × String)) (l : By' × String)
    (h : firstMatching page ls = some l) :
    ∀ first w, (get_locator_go page timeout (mkLocs ls) first w).1 = Except.ok l := by
  induction ls with
  | nil => simp [firstMatching] at h
  | cons p rest ih =>
    obtain ⟨b, v⟩ := p
    intro first w
    by_cases hp : 0 < page b v
    · have hl : l = (b, v) := by
        simp [firstMatching, List.find?_cons, hp] at h
        exact h.symm
      subst hl
      cases first <;> simp [mkLocs, get_locator_go, hp]
    · have h' : firstMatching page rest = some l := by
        simpa [firstMatching, List.find?_cons, hp] using h
      cases first <;> simp [mkLocs, get_locator_go, hp] <;> exact ih h' _ _

theorem get_locator_go_notFound (page : By' → String → Nat) (timeout : Nat)
    (ls : List (By' × String)) (h : firstMatching page ls = none) :
    ∀ fl w, (get_locator_go page timeout (mkLocs ls) (some fl) w).1
      = Except.error (GLErr.notFound fl) := by
  induction ls with
  | nil => intro fl w; simp [mkLocs, get_locator_go]
  | cons p rest ih =>
    obtain ⟨b, v⟩ := p
    intro fl w
    have hp : ¬ 0 < page b v := by
      by_contra hp
      simp [firstMatching, List.find?_cons, hp] at h
    have h' : firstMatching page rest = none := by
      simpa [firstMatching, List.find?_cons, hp] using h
    simp [mkLocs, get_locator_go, hp]
    exact ih h' fl 0

theorem get_locator_go_snd (page : By' → String → Nat) (timeout : Nat)
    (ls : List (By' × String)) :
    ∀ first w, (get_locator_go page timeout (mkLocs ls) first w).2 = timeout := by
  induction ls with
  | nil => intro first w; cases first <;> simp [mkLocs, get_locator_go]
  | cons p rest ih =>
    obtain ⟨b, v⟩ := p
    intro first w
    by_cases hp : 0 < page b v
    · cases first <;> simp [mkLocs, get_locator_go, hp]
    · cases first <;> simp [mkLocs, get_locator_go, hp] <;> exact ih _ _

/-- On a single recognized locator, `get_locator([locator], True)` (as used by
the wait-for probes) succeeds exactly when `find_elements` returns a
non-empty list, and then returns that very locator. -/
theorem get_locator_single (page : By' → String → Nat) (timeout : Nat)
    (b : By') (v : String) (ig : Bool) (w0 : Nat) :
    (get_locator page timeout (mkLocs [(b, v)]) ig w0).1
      = if 0 < page b v then Except.ok (b, v)
        else Except.error (GLErr.notFound (b, v)) := by
  by_cases hp : 0 < page b v <;>
    simp [get_locator, mkLocs, get_locator_go, hp]

/-- The value stored under the `"timeout"` key of the thread store: Python
`None`, the empty list `[]`, or a number. -/
inductive StoredTimeout where
  | pynone
  | pyemptyList
  | pynum (n : Nat)
deriving DecidableEq, Repr

/-- Python truthiness of the stored value (`bool(timeout)`). -/
def timeoutTruthy : StoredTimeout → Bool
  | StoredTimeout.pynone => false
  | StoredTimeout.pyemptyList => false
  | StoredTimeout.pynum n => n != 0

/-- Python `timeout == 0` (`None == 0` and `[] == 0` are both `False`). -/
def timeoutEqZero : StoredTimeout → Bool
  | StoredTimeout.pynum n => n == 0
  | _ => false

/-- `_get_timeout()`: replace the stored value by the default 30 unless it is
truthy or equal to 0. -/
def _get_timeout (stored : StoredTimeout) : StoredTimeout :=
  if !(timeoutTruthy stored || timeoutEqZero stored) then StoredTimeout.pynum 30
  else stored

/-- Errors surfaced by `WindowManager`.  `noSuchWindow` is selenium's
`NoSuchWindowException`; `indexError` the Python `IndexError` of an
out-of-bounds list subscript; `valueError` the `ValueError` of a failed
`int(...)` conversion. -/
inductive WinErr where
  | noSuchWindow (msg : String)
  | indexError
  | valueError
deriving DecidableEq, Repr

/-- Python `"%s" % x` for an optional string, where `None` prints as
`"None"`. -/
def pyStrOpt : Option String → String
  | none => "None"
  | some s => s

/-- `WindowManager._switch_by_idx(win_index)`.  `handles` is
`driver.window_handles`; `Except.ok h` means the driver switched to handle
`h`.  The guard is transcribed exactly as written in the source:
`len(wnd_handlers) <= win_index and win_index >= 0` guards the subscript
`wnd_handlers[win_index]`. -/
def switch_by_idx (handles : List String) (win_index : Int) : Except WinErr String :=
  if (handles.length : Int) ≤ win_index ∧ 0 ≤ win_index then
    match handles.get? win_index.toNat with
    | some h => Except.ok h
    | none => Except.error WinErr.indexError
  else
    Except.error (WinErr.noSuchWindow ("Invalid Window ID: " ++ toString win_index))

/-- `WindowManager._switch_by_win_ser(window_name)`.  `windows` is the
manager's `self.windows` name-to-handle dictionary; the result pairs the
outcome (the handle switched to) with the updated dictionary. -/
def switch_by_win_ser (window_name : String) (handles : List String)
    (windows : String → Option String) :
    (Except WinErr String) × (String → Option String) :=
  if window_name = "win_ser_local" then
    match handles with
    | [] => (Except.error (WinErr.noSuchWindow ("Invalid Window ID: " ++ window_name)), windows)
    | h :: _ => (Except.ok h, windows)
  else
    match windows window_name with
    | some h => (Except.ok h, windows)
    | none =>
      match handles.getLast? with
      | none => (Except.error WinErr.indexError, windows)
      | some h => (Except.ok h, fun n => if n = window_name then some h else windows n)

/-- `WindowManager.switch(window_name)`.  `nameOk` tells whether
`driver.switch_to.window(name)` succeeds for a plain window name; `wn` is the
optional `window_name` argument.  The surrounding `try`/`except` re-raises any
`NoSuchWindowException` as `NoSuchWindowException("Invalid Window ID: %s" %
window_name)`. -/
def window_switch (nameOk : String → Bool) (windows : String → Option String)
    (handles : List String) (wn : Option String) :
    (Except WinErr String) × (String → Option String) :=
  let inner : (Except WinErr String) × (String → Option String) :=
    match wn with
    | none =>
      match handles.getLast? with
      | some h => (Except.ok h, windows)
      | none => (Except.error WinErr.indexError, windows)
    | some name =>
      if name = "" then
        match handles.getLast? with
        | some h => (Except.ok h, windows)
        | none => (Except.error WinErr.indexError, windows)
      else if pyIsDigit name then
        (switch_by_idx handles ((digitsToNat name.data : Nat) : Int), windows)
      else if pyStartsWith name "win_ser_" then
        switch_by_win_ser name handles windows
      else if nameOk name then (Except.ok name, windows)
      else (Except.error (WinErr.noSuchWindow ""), windows)
  match inner with
  | (Except.error (WinErr.noSuchWindow _), w) =>
    (Except.error (WinErr.noSuchWindow ("Invalid Window ID: " ++ pyStrOpt wn)), w)
  | r => r

/-- Errors surfaced by `FrameManager.switch`: selenium's
`NoSuchFrameException`, or the Python `ValueError` of a failed `int(...)`. -/
inductive FrameErr where
  | noSuchFrame (msg : String)
  | valueError
deriving DecidableEq, Repr

/-- The four driver operations `FrameManager.switch` can forward to. -/
inductive FrameAction where
  | defaultContent
  | byIndex (i : Int)
  | parentFrame
  | byName (s : String)
deriving DecidableEq, Repr

/-- The integer argument `int(frame_name.split("=")[1])` of an `index=`
switch (`none` models the `ValueError`). -/
def frameIndexArg (name : String) : Option Int :=
  ((splitChar '=' name.data).get? 1).bind pyInt

/-- `FrameManager.switch(frame_name)`.  `ok a` tells whether the driver
operation `a` succeeds (when it fails it raises `NoSuchFrameException`).
The `try`/`except` re-raises any `NoSuchFrameException` as
`NoSuchFrameException("Invalid Frame ID: %s" % frame_name)`; a `ValueError`
from `int(frame_name.split("=")[1])` is not caught. -/
def frame_switch (ok : FrameAction → Bool) (fn : Option String) :
    Except FrameErr FrameAction :=
  let act : Except FrameErr FrameAction :=
    match fn with
    | none => Except.ok FrameAction.defaultContent
    | some name =>
      if name = "" ∨ name = "relative=top" then Except.ok FrameAction.defaultContent
      else if pyStartsWith name "index=" then
        match frameIndexArg name with
        | some i => Except.ok (FrameAction.byIndex i)
        | none => Except.error FrameErr.valueError
      else if name = "relative=parent" then Except.ok FrameAction.parentFrame
      else Except.ok (FrameAction.byName name)
  match act with
  | Except.ok a =>
    if ok a then Except.ok a
    else Except.error (FrameErr.noSuchFrame ("Invalid Frame ID: " ++ pyStrOpt fn))
  | e => e

/-- An apostrophe, used by the Python format strings below. -/
def sq : String := String.singleton (Char.ofNat 39)

/-- The polling loop of selenium's `WebDriverWait.until`: check the condition,
and if it does not hold sleep one tick and stop once the deadline has passed.
`fuel` is the number of remaining sleeps, i.e. `deadline - now`; a call with a
non-positive remaining budget still checks the condition once, exactly as the
Python loop does.  Returns whether the condition was met, paired with the
time at which the call returned. -/
def waitUntil (cond : Nat → Bool) : Nat → Nat → Bool × Nat
  | fuel, t =>
    if cond t then (true, t)
    else
      match fuel with
      | 0 => (false, t + 1)
      | f + 1 => waitUntil cond f (t + 1)

/-- `WebDriverWait.until_not`: the same loop waiting for the condition to
become falsy. -/
def waitUntilNot (cond : Nat → Bool) (fuel t : Nat) : Bool × Nat :=
  waitUntil (fun u => !cond u) fuel t

theorem waitUntil_now {cond : Nat → Bool} {t : Nat} (h : cond t = true)
    (fuel : Nat) : waitUntil cond fuel t = (true, t) := by
  cases fuel <;> simp [waitUntil, h]

theorem waitUntil_neverT {cond : Nat → Bool} (h : ∀ u, cond u = false) :
    ∀ fuel t, waitUntil cond fuel t = (false, t + fuel + 1) := by
  intro fuel
  induction fuel with
  | zero => intro t; simp [waitUntil, h]
  | succ f ih => intro t; simp [waitUntil, h, ih (t + 1)]; omega

theorem waitUntil_snd_ge (cond : Nat → Bool) :
    ∀ fuel t, t ≤ (waitUntil cond fuel t).2 := by
  intro fuel
  induction fuel with
  | zero =>
    intro t
    by_cases h : cond t = true <;> simp [waitUntil, h]
  | succ f ih =>
    intro t
    by_cases h : cond t = true
    · simp [waitUntil, h]
    · have := ih (t + 1)
      simp [waitUntil, h]
      omega

theorem waitUntil_snd_le (cond : Nat → Bool) :
    ∀ fuel t, (waitUntil cond fuel t).2 ≤ t + fuel + 1 := by
  intro fuel
  induction fuel with
  | zero =>
    intro t
    by_cases h : cond t = true <;> simp [waitUntil, h]
  | succ f ih =>
    intro t
    by_cases h : cond t = true
    · simp [waitUntil, h]; omega
    · have := ih (t + 1)
      simp [waitUntil, h]
      omega

theorem waitUntil_true_le (cond : Nat → Bool) :
    ∀ fuel t, (waitUntil cond fuel t).1 = true → (waitUntil cond fuel t).2 ≤ t + fuel := by
  intro fuel
  induction fuel with
  | zero =>
    intro t h
    by_cases hc : cond t = true <;> simp [waitUntil, hc] at h ⊢
  | succ f ih =>
    intro t h
    by_cases hc : cond t = true
    · simp [waitUntil, hc]
    · have := ih (t + 1)
      simp [waitUntil, hc] at h ⊢
      have := this h
      omega

/-- The message of the `NoSuchElementException` that `_wait_for_positive`
raises when the budget is exhausted. -/
def posTimeoutMsg (condName : String) : String :=
  "Timeout occurred while waiting for " ++ sq ++ condName ++ sq ++ " condition"

/-- The `message` argument `_wait_for_negative` passes to
`WebDriverWait.until_not`. -/
def negTimeoutMsg (l : By' × String) (condName : String) : String :=
  "Timeout occurred while waiting for element (" ++ byValue l.1 ++ "=" ++ l.2
    ++ ") to become " ++ sq ++ condName ++ sq

/-- One iteration of the `_wait_for_positive` body up to the timeout check:
the `get_locator(locators, True)` probe (one `find_elements` round trip, one
tick), followed — when a locator was found — by `WebDriverWait(driver,
wait_timeout).until(...)`.  `loc t` is the probe's outcome at time `t`
(`none` when `get_locator` raised `NoSuchElementException`); `cond l u` is
whether the expected condition holds for locator `l` at time `u`. -/
def posProbe (loc : Nat → Option (By' × String))
    (cond : By' × String → Nat → Bool) (wt t : Nat) : Bool × Nat :=
  match loc t with
  | some l => waitUntil (cond l) wt (t + 1)
  | none => (false, t + 1)

theorem posProbe_ge (loc : Nat → Option (By' × String))
    (cond : By' × String → Nat → Bool) (wt t : Nat) :
    t + 1 ≤ (posProbe loc cond wt t).2 := by
  cases hl : loc t with
  | none => simp [posProbe, hl]
  | some l =>
    have := waitUntil_snd_ge (cond l) wt (t + 1)
    simp [posProbe, hl]
    exact this

theorem posProbe_le (loc : Nat → Option (By' × String))
    (cond : By' × String → Nat → Bool) (wt t : Nat) :
    (posProbe loc cond wt t).2 ≤ t + wt + 2 := by
  cases hl : loc t with
  | none => simp [posProbe, hl]; omega
  | some l =>
    have := waitUntil_snd_le (cond l) wt (t + 1)
    simp [posProbe, hl]
    omega

theorem posProbe_neverT (loc : Nat → Option (By' × String))
    (cond : By' × String → Nat → Bool)
    (h : ∀ l u, cond l u = false) (wt t : Nat) :
    (posProbe loc cond wt t).1 = false := by
  cases hl : loc t with
  | none => simp [posProbe, hl]
  | some l => simp [posProbe, hl, waitUntil_neverT (h l) wt (t + 1)]

/-- `WaitForManager._wait_for_positive(condition, locators, wait_timeout)`.
`start` is the loop's `start_time`; `t` the current time.  The loop body is
`posProbe`; when it fails, `elapsed_time > wait_timeout` raises the timeout
`NoSuchElementException`, otherwise the loop runs again.  Returns the
outcome paired with the time of return. -/
def waitForPositive (loc : Nat → Option (By' × String))
    (cond : By' × String → Nat → Bool) (condName : String)
    (wt start t : Nat) : (Except String Unit) × Nat :=
  if (posProbe loc cond wt t).1 then (Except.ok (), (posProbe loc cond wt t).2)
  else if wt < (posProbe loc cond wt t).2 - start then
    (Except.error (posTimeoutMsg condName), (posProbe loc cond wt t).2)
  else waitForPositive loc cond condName wt start (posProbe loc cond wt t).2
termination_by start + wt + 1 - t
decreasing_by
  have h1 := posProbe_ge loc cond wt t
  omega

/-- The second loop of `_wait_for_negative`: one `until_not` per present
locator, each with budget `wait_timeout - elapsed_time`, i.e. with deadline
`t0 + wt` where `t0` is `start_time`. -/
def negGo (cond : By' × String → Nat → Bool) (condName : String)
    (wt t0 : Nat) : List (By' × String) → Nat → (Except String Unit) × Nat
  | [], t => (Except.ok (), t)
  | l :: rest, t =>
    match waitUntilNot (cond l) (t0 + wt - t) t with
    | (true, t1) => negGo cond condName wt t0 rest t1
    | (false, t1) => (Except.error (negTimeoutMsg l condName), t1)

/-- `WaitForManager._wait_for_negative(condition, locators, wait_timeout)`.
The first loop probes each locator with `get_locator([locator], True)`
(which by `get_locator_single` succeeds exactly when `find_elements` finds
something) and collects the present ones; if none is present the call
returns at once, otherwise `negGo` runs the `until_not` waits from
`start_time = t0`. -/
def waitForNegative (page : By' → String → Nat)
    (cond : By' × String → Nat → Bool) (condName : String) (wt : Nat)
    (ls : List (By' × String)) (t0 : Nat) : (Except String Unit) × Nat :=
  let present := ls.filter (fun l => decide (0 < page l.1 l.2))
  if present = [] then (Except.ok (), t0)
  else negGo cond condName wt t0 present t0

/-- `WaitForManager.POSITIVE_CONDS`. -/
def POSITIVE_CONDS : List String := ["present", "visible", "clickable"]

/-- `WaitForManager.NEGATIVE_CONDS`. -/
def NEGATIVE_CONDS : List String := ["notpresent", "notvisible", "notclickable"]

/-- The probe `get_locator(locators, True)` as `_wait_for_positive` performs
it at time `t`, with the raised `NoSuchElementException` swallowed into
`none`. -/
def wfLoc (page : Nat → By' → String → Nat) (timeout : Nat)
    (ls : List (By' × String)) (t : Nat) : Option (By' × String) :=
  match (get_locator (page t) timeout (mkLocs ls) true 0).1 with
  | Except.ok l => some l
  | Except.error _ => none

/-- `WaitForManager.wait_for(condition, locators, wait_timeout)`: dispatch on
the lowercased condition; a condition in neither list falls through the
`if`/`elif` and the method returns `None` at once. -/
def wait_for (page : Nat → By' → String → Nat)
    (cond : By' × String → Nat → Bool) (timeout : Nat) (condition : String)
    (ls : List (By' × String)) (wait_timeout t0 : Nat) :
    (Except String Unit) × Nat :=
  if pyLower condition ∈ POSITIVE_CONDS then
    waitForPositive (wfLoc page timeout ls) cond (pyLower condition) wait_timeout t0 t0
  else if pyLower condition ∈ NEGATIVE_CONDS then
    waitForNegative (page t0) cond (pyLower condition) wait_timeout ls t0
  else (Except.ok (), t0)

/-- The JavaScript-side state `DialogsManager.replace_dialogs` installs on a
page.  `replaced` models whether `window.__webdriverAlerts` (and friends)
exist — a fresh page load starts with `replaced = false`; the three lists
are the `__webdriverAlerts`, `__webdriverConfirms` and `__webdriverPrompts`
arrays. -/
structure PageDialogs where
  replaced : Bool
  alerts : List String
  confirms : List String
  prompts : List String
deriving DecidableEq, Repr

/-- A freshly loaded page, before any script injection. -/
def freshPage : PageDialogs :=
  { replaced := false, alerts := [], confirms := [], prompts := [] }

/-- `DialogsManager.replace_dialogs()`.  A no-op when the manager is not
active; the injected script itself returns early when
`window.__webdriverAlerts` already exists (a JavaScript array is always
truthy), so a second injection leaves the queues alone. -/
def replace_dialogs (is_active : Bool) (s : PageDialogs) : PageDialogs :=
  if !is_active then s
  else if s.replaced then s
  else { replaced := true, alerts := [], confirms := [], prompts := [] }

/-- The replaced `window.alert` pushing its message; on a page whose dialogs
were not replaced the native dialog shows and no queue changes. -/
def raise_alert (msg : String) (s : PageDialogs) : PageDialogs :=
  if s.replaced then { s with alerts := s.alerts ++ [msg] } else s

/-- The replaced `window.confirm` pushing its message. -/
def raise_confirm (msg : String) (s : PageDialogs) : PageDialogs :=
  if s.replaced then { s with confirms := s.confirms ++ [msg] } else s

/-- The replaced `window.prompt` pushing `msg || def` (the default text when
the message is falsy). -/
def raise_prompt (msg defText : String) (s : PageDialogs) : PageDialogs :=
  if s.replaced then
    { s with prompts := s.prompts ++ [if msg = "" then defText else msg] }
  else s

/-- Python `str.replace` of each newline by a space, as the JavaScript
`t.replace(/\n/g, ' ')` in `get_next_alert` does. -/
def replaceNL (s : String) : String :=
  String.mk (s.data.map (fun c => if c = '\n' then ' ' else c))

/-- `DialogsManager.get_next_alert()`: `null` when the dialogs were never
replaced, otherwise `shift()` the oldest alert and — when it is truthy —
replace its newlines by spaces. -/
def get_next_alert (s : PageDialogs) : Option String × PageDialogs :=
  if !s.replaced then (none, s)
  else
    match s.alerts with
    | [] => (none, s)
    | m :: rest =>
      ((if m = "" then some m else some (replaceNL m)), { s with alerts := rest })

/-- `DialogsManager.get_next_confirm()`. -/
def get_next_confirm (s : PageDialogs) : Option String × PageDialogs :=
  if !s.replaced then (none, s)
  else
    match s.confirms with
    | [] => (none, s)
    | m :: rest => (some m, { s with confirms := rest })

/-- `DialogsManager.get_next_prompt()`. -/
def get_next_prompt (s : PageDialogs) : Option String × PageDialogs :=
  if !s.replaced then (none, s)
  else
    match s.prompts with
    | [] => (none, s)
    | m :: rest => (some m, { s with prompts := rest })

/-- C9: `_get_timeout` returns 30 when the stored timeout is unset (`None` or
an empty value), and returns the stored value unchanged otherwise; in
particular an explicitly stored 0 is returned as 0, not replaced by the
default. -/
theorem get_timeout_spec :
    _get_timeout StoredTimeout.pynone = StoredTimeout.pynum 30
    ∧ _get_timeout StoredTimeout.pyemptyList = StoredTimeout.pynum 30
    ∧ ∀ n : Nat, _get_timeout (StoredTimeout.pynum n) = StoredTimeout.pynum n := by
  refine ⟨by decide, by decide, ?_⟩
  intro n
  have hb : (n != 0 || n == 0) = true := by
    by_cases h : n = 0 <;> simp [h]
  simp [_get_timeout, timeoutTruthy, timeoutEqZero, hb]

/-- C10: for a locator list whose types are all recognized,
`Manager.get_locator` leaves the driver's implicit-wait setting equal to the
stored timeout when it finishes — on the success path and on the not-found
path, whatever the setting was on entry and whether `ignore_implicit_wait`
was requested. -/
theorem get_locator_restores_implicit_wait (page : By' → String → Nat)
    (timeout : Nat) (ls : List (By' × String)) (ig : Bool) (w0 : Nat) :
    (get_locator page timeout (mkLocs ls) ig w0).2 = timeout := by
  unfold get_locator
  exact get_locator_go_snd page timeout ls none _

/-- C1: on a non-empty locator list, `Manager.get_locator` returns the first
locator (in list order) that matches at least one element in the page, and
raises `NoSuchElementException` naming the first locator exactly when no
locator in the list matches any element. -/
theorem get_locator_spec (page : By' → String → Nat) (timeout : Nat)
    (ls : List (By' × String)) (h : ls ≠ []) (ig : Bool) (w0 : Nat) :
    (∀ l, firstMatching page ls = some l →
      (get_locator page timeout (mkLocs ls) ig w0).1 = Except.ok l)
    ∧ ((get_locator page timeout (mkLocs ls) ig w0).1
        = Except.error (GLErr.notFound (ls.head h))
      ↔ firstMatching page ls = none) := by
  constructor
  · intro l hl
    unfold get_locator
    exact get_locator_go_some page timeout ls l hl _ _
  · constructor
    · intro he
      cases hf : firstMatching page ls with
      | none => rfl
      | some l =>
        have hok := get_locator_go_some page timeout ls l hf none
          (if ig then 0 else w0)
        unfold get_locator at he
        rw [hok] at he
        simp at he
    · intro hf
      cases ls with
      | nil => exact absurd rfl h
      | cons p rest =>
        obtain ⟨b, v⟩ := p
        have hp : ¬ 0 < page b v := by
          by_contra hp
          simp [firstMatching, List.find?_cons, hp] at hf
        have hr : firstMatching page rest = none := by
          simpa [firstMatching, List.find?_cons, hp] using hf
        unfold get_locator
        simp [mkLocs, get_locator_go, hp]
        have := get_locator_go_notFound page timeout rest hr (b, v)
          (if ig = true then 0 else w0)
        simpa [mkLocs] using this

/-- Witness for C1: with two locators of which the second is the first match,
`get_locator` returns the second one. -/
theorem get_locator_spec_witness :
    (get_locator (fun b _ => if b = By'.css then 1 else 0) 30
        (mkLocs [(By'.id, "a"), (By'.css, "b")]) true 5).1
      = Except.ok (By'.css, "b") := by
  have h := get_locator_spec (fun b _ => if b = By'.css then 1 else 0) 30
    [(By'.id, "a"), (By'.css, "b")] (by decide) true 5
  exact h.1 (By'.css, "b") (by decide)

/-- C3 is false of the code as written: the guard of `_switch_by_idx` is
reversed, so with one open window the in-range index 0 raises
`NoSuchWindowException("Invalid Window ID: 0")` while the out-of-range index
1 takes the subscript branch and raises a bare `IndexError` instead of a
`NoSuchWindowException`. -/
theorem window_switch_idx_bug :
    (window_switch (fun _ => false) (fun _ => none) ["h0"] (some "0")).1
      = Except.error (WinErr.noSuchWindow "Invalid Window ID: 0")
    ∧ (window_switch (fun _ => false) (fun _ => none) ["h0"] (some "1")).1
      = Except.error WinErr.indexError := by
  exact ⟨rfl, rfl⟩

/-- C4: for a `win_ser_` name other than `win_ser_local`, the first switch
binds the name to the last currently-open window handle, every later switch
with the same name goes to that same stored handle, and an existing binding
is never overwritten. -/
theorem win_ser_binding (name : String) (handles : List String)
    (windows : String → Option String) (hn : name ≠ "win_ser_local") :
    (∀ h0, windows name = none → handles.getLast? = some h0 →
      switch_by_win_ser name handles windows
        = (Except.ok h0, fun n => if n = name then some h0 else windows n))
    ∧ (∀ h0, windows name = some h0 →
      switch_by_win_ser name handles windows = (Except.ok h0, windows)) := by
  constructor
  · intro h0 hw hl
    simp [switch_by_win_ser, hn, hw, hl]
  · intro h0 hw
    simp [switch_by_win_ser, hn, hw]

/-- Witness for C4: a first switch on an unbound name binds it to the last
open handle. -/
theorem win_ser_binding_witness :
    switch_by_win_ser "win_ser_a" ["h1", "h2"] (fun _ => none)
      = (Except.ok "h2", fun n => if n = "win_ser_a" then some "h2" else none) := by
  exact (win_ser_binding "win_ser_a" ["h1", "h2"] (fun _ => none) (by decide)).1
    "h2" rfl rfl

/-- C5: `FrameManager.switch` selects exactly one strategy — default content
for an empty name or `relative=top`, frame-by-integer-index for an `index=`
prefixed name, parent frame for `relative=parent`, otherwise frame-by-name —
and every failure of the underlying frame switch surfaces as
`NoSuchFrameException` with message `Invalid Frame ID: <name>`. -/
theorem frame_switch_spec (ok : FrameAction → Bool) :
    ((∀ a, ok a = true) →
      (∀ fn, (fn = none ∨ fn = some "" ∨ fn = some "relative=top") →
        frame_switch ok fn = Except.ok FrameAction.defaultContent)
      ∧ (∀ name i, pyStartsWith name "index=" = true →
          frameIndexArg name = some i →
          frame_switch ok (some name) = Except.ok (FrameAction.byIndex i))
      ∧ frame_switch ok (some "relative=parent") = Except.ok FrameAction.parentFrame
      ∧ (∀ name, name ≠ "" → name ≠ "relative=top" →
          pyStartsWith name "index=" = false → name ≠ "relative=parent" →
          frame_switch ok (some name) = Except.ok (FrameAction.byName name)))
    ∧ (∀ fn msg, frame_switch ok fn = Except.error (FrameErr.noSuchFrame msg) →
        msg = "Invalid Frame ID: " ++ pyStrOpt fn) := by
  constructor
  · intro hok
    refine ⟨?_, ?_, ?_, ?_⟩
    · rintro fn (rfl | rfl | rfl) <;> simp [frame_switch, hok]
    · intro name i hs hp
      have h1 : ¬ name = "" := by
        rintro rfl
        exact absurd hs (by decide)
      have h2 : ¬ name = "relative=top" := by
        rintro rfl
        exact absurd hs (by decide)
      simp [frame_switch, h1, h2, hs, hp, hok]
    · have hs : pyStartsWith "relative=parent" "index=" = false := by decide
      simp [frame_switch, hok, hs]
    · intro name h1 h2 hs h3
      simp [frame_switch, h1, h2, hs, h3, hok]
  · intro fn msg he
    cases fn with
    | none =>
      by_cases hd : ok FrameAction.defaultContent = true <;>
        simp [frame_switch, hd] at he
      exact he.symm
    | some name =>
      by_cases h1 : name = "" ∨ name = "relative=top"
      · by_cases hd : ok FrameAction.defaultContent = true <;>
          simp [frame_switch, h1, hd] at he
        exact he.symm
      · by_cases hs : pyStartsWith name "index=" = true
        · cases hp : frameIndexArg name with
          | none => simp [frame_switch, h1, hs, hp] at he
          | some i =>
            by_cases hd : ok (FrameAction.byIndex i) = true <;>
              simp [frame_switch, h1, hs, hp, hd] at he
            exact he.symm
        · by_cases h3 : name = "relative=parent"
          · subst h3
            by_cases hd : ok FrameAction.parentFrame = true <;>
              simp [frame_switch, h1, hs, hd] at he
            exact he.symm
          · by_cases hd : ok (FrameAction.byName name) = true <;>
              simp [frame_switch, h1, hs, h3, hd] at he
            exact he.symm

/-- Witness for C5: with a driver for which every frame operation succeeds,
`switch("index=2")` selects frame-by-index 2; and a failing by-name switch
surfaces the `Invalid Frame ID` message. -/
theorem frame_switch_spec_witness :
    frame_switch (fun _ => true) (some "index=2") = Except.ok (FrameAction.byIndex 2)
    ∧ "Invalid Frame ID: abc" = "Invalid Frame ID: " ++ pyStrOpt (some "abc") := by
  constructor
  · exact ((frame_switch_spec (fun _ => true)).1 (fun _ => rfl)).2.1 "index=2" 2
      (by decide) (by decide)
  · exact (frame_switch_spec (fun _ => false)).2 (some "abc") "Invalid Frame ID: abc" rfl

/-- C8: for a condition string whose lowercase form is in neither the
positive nor the negative condition list, `WaitForManager.wait_for` returns
immediately — no polling, no driver interaction (no time passes), no
error. -/
theorem wait_for_unknown_condition (page : Nat → By' → String → Nat)
    (cond : By' × String → Nat → Bool) (timeout : Nat) (condition : String)
    (ls : List (By' × String)) (wait_timeout t0 : Nat)
    (h1 : pyLower condition ∉ POSITIVE_CONDS)
    (h2 : pyLower condition ∉ NEGATIVE_CONDS) :
    wait_for page cond timeout condition ls wait_timeout t0 = (Except.ok (), t0) := by
  simp [wait_for, h1, h2]

/-- Witness for C8: the unknown condition `"Hovered"` makes `wait_for` a
no-op. -/
theorem wait_for_unknown_condition_witness :
    wait_for (fun _ _ _ => 0) (fun _ _ => false) 30 "Hovered" [] 10 7
      = (Except.ok (), 7) := by
  exact wait_for_unknown_condition (fun _ _ _ => 0) (fun _ _ => false) 30 "Hovered"
    [] 10 7 (by decide) (by decide)

theorem waitForPositive_never (loc : Nat → Option (By' × String))
    (cond : By' × String → Nat → Bool) (condName : String) (wt start : Nat)
    (h : ∀ l u, cond l u = false) :
    ∀ fuel t, start + wt + 1 - t ≤ fuel → t ≤ start + wt →
      (waitForPositive loc cond condName wt start t).1
        = Except.error (posTimeoutMsg condName)
      ∧ (waitForPositive loc cond condName wt start t).2 ≤ start + 2 * wt + 2 := by
  intro fuel
  induction fuel with
  | zero => intro t hf ht; omega
  | succ f ih =>
    intro t hf ht
    have hp1 : (posProbe loc cond wt t).1 = false := posProbe_neverT loc cond h wt t
    have hge := posProbe_ge loc cond wt t
    have hle := posProbe_le loc cond wt t
    unfold waitForPositive
    rw [hp1]
    simp only [Bool.false_eq_true, if_false]
    by_cases hc : wt < (posProbe loc cond wt t).2 - start
    · rw [if_pos hc]
      exact ⟨rfl, by simp; omega⟩
    · rw [if_neg hc]
      exact ih (posProbe loc cond wt t).2 (by omega) (by omega)

/-- C2: for a positive condition, `_wait_for_positive` returns normally as
soon as a found locator satisfies the condition, and when the condition is
never met it raises the timeout error, with the whole polling loop bounded
by the fixed `wait_timeout` budget (at most one extra `WebDriverWait` past
the elapsed-time check, never a retry beyond it). -/
theorem wait_for_positive_spec (loc : Nat → Option (By' × String))
    (cond : By' × String → Nat → Bool) (condName : String) (wt start : Nat) :
    ((∃ l, loc start = some l ∧ cond l (start + 1) = true) →
      waitForPositive loc cond condName wt start start = (Except.ok (), start + 1))
    ∧ ((∀ l u, cond l u = false) →
      (waitForPositive loc cond condName wt start start).1
        = Except.error (posTimeoutMsg condName)
      ∧ (waitForPositive loc cond condName wt start start).2
        ≤ start + 2 * wt + 2) := by
  constructor
  · rintro ⟨l, hl, hc⟩
    have hp : posProbe loc cond wt start = (true, start + 1) := by
      simp [posProbe, hl, waitUntil_now hc]
    unfold waitForPositive
    rw [hp]
    simp
  · intro h
    exact waitForPositive_never loc cond condName wt start h (start + wt + 1) start
      (by omega) (by omega)

/-- Witness for C2: a locator found at once whose condition holds at the
first check makes the wait return normally; with no locator ever found the
timeout error is raised. -/
theorem wait_for_positive_spec_witness :
    waitForPositive (fun _ => some (By'.id, "a")) (fun _ u => decide (u = 1))
        "visible" 5 0 0 = (Except.ok (), 1)
    ∧ (waitForPositive (fun _ => none) (fun _ _ => false) "visible" 1 0 0).1
      = Except.error (posTimeoutMsg "visible") := by
  constructor
  · exact (wait_for_positive_spec (fun _ => some (By'.id, "a"))
      (fun _ u => decide (u = 1)) "visible" 5 0).1 ⟨(By'.id, "a"), rfl, by decide⟩
  · exact ((wait_for_positive_spec (fun _ => none) (fun _ _ => false)
      "visible" 1 0).2 (fun _ _ => rfl)).1

theorem negGo_allFalse (cond : By' × String → Nat → Bool) (condName : String)
    (wt t0 : Nat) (h : ∀ l u, cond l u = false) :
    ∀ ps t, negGo cond condName wt t0 ps t = (Except.ok (), t) := by
  intro ps
  induction ps with
  | nil => intro t; rfl
  | cons l rest ih =>
    intro t
    have hw : waitUntilNot (cond l) (t0 + wt - t) t = (true, t) := by
      unfold waitUntilNot
      exact waitUntil_now (by simp [h l t]) _
    simp [negGo, hw, ih]

theorem negGo_firstTrue (cond : By' × String → Nat → Bool) (condName : String)
    (wt t0 : Nat) (h : ∀ l u, cond l u = true) (l : By' × String)
    (rest : List (By' × String)) :
    negGo cond condName wt t0 (l :: rest) t0
      = (Except.error (negTimeoutMsg l condName), t0 + wt + 1) := by
  have hw : waitUntilNot (cond l) wt t0 = (false, t0 + wt + 1) :=
    waitUntil_neverT (fun u => by simp [h l u]) wt t0
  simp [negGo, hw]

theorem negGo_le (cond : By' × String → Nat → Bool) (condName : String)
    (wt t0 : Nat) :
    ∀ ps t, t ≤ t0 + wt → (negGo cond condName wt t0 ps t).2 ≤ t0 + wt + 1 := by
  intro ps
  induction ps with
  | nil => intro t ht; simp [negGo]; omega
  | cons l rest ih =>
    intro t ht
    rcases hw : waitUntilNot (cond l) (t0 + wt - t) t with ⟨b, t1⟩
    have hle := waitUntil_snd_le (fun u => !cond l u) (t0 + wt - t) t
    rw [show waitUntil (fun u => !cond l u) (t0 + wt - t) t
        = waitUntilNot (cond l) (t0 + wt - t) t from rfl, hw] at hle
    cases b with
    | true =>
      have h1 := waitUntil_true_le (fun u => !cond l u) (t0 + wt - t) t
      rw [show waitUntil (fun u => !cond l u) (t0 + wt - t) t
          = waitUntilNot (cond l) (t0 + wt - t) t from rfl, hw] at h1
      simp at h1
      simp [negGo, hw]
      exact ih t1 (by omega)
    | false =>
      simp [negGo, hw]
      omega

/-- C6: for a negative condition, `_wait_for_negative` returns immediately
when no locator currently matches; when the present locators have all
already stopped satisfying the condition it returns with no waiting; when a
present locator keeps satisfying it the shared `wait_timeout` budget is
exhausted on it and the timeout error naming it is raised; and in every case
the waits share the single budget: the call never runs past
`start + wait_timeout` (plus the one final check the selenium loop always
makes). -/
theorem wait_for_negative_spec (page : By' → String → Nat)
    (cond : By' × String → Nat → Bool) (condName : String) (wt : Nat)
    (ls : List (By' × String)) (t0 : Nat) :
    ((∀ l ∈ ls, page l.1 l.2 = 0) →
      waitForNegative page cond condName wt ls t0 = (Except.ok (), t0))
    ∧ ((∀ l u, cond l u = false) →
      waitForNegative page cond condName wt ls t0 = (Except.ok (), t0))
    ∧ (∀ l rest, ls.filter (fun x => decide (0 < page x.1 x.2)) = l :: rest →
      (∀ x u, cond x u = true) →
      waitForNegative page cond condName wt ls t0
        = (Except.error (negTimeoutMsg l condName), t0 + wt + 1))
    ∧ (waitForNegative page cond condName wt ls t0).2 ≤ t0 + wt + 1 := by
  refine ⟨?_, ?_, ?_, ?_⟩
  · intro h
    have hf : ls.filter (fun l => decide (0 < page l.1 l.2)) = [] := by
      apply List.filter_eq_nil_iff.mpr
      intro a ha
      simp [h a ha]
    simp [waitForNegative, hf]
  · intro h
    unfold waitForNegative
    by_cases hp : ls.filter (fun l => decide (0 < page l.1 l.2)) = []
    · simp [hp]
    · simp [hp, negGo_allFalse cond condName wt t0 h]
  · intro l rest hf hc
    simp [waitForNegative, hf, negGo_firstTrue cond condName wt t0 hc l rest]
  · unfold waitForNegative
    by_cases hp : ls.filter (fun l => decide (0 < page l.1 l.2)) = []
    · simp [hp]
      omega
    · simp [hp]
      exact negGo_le cond condName wt t0 _ t0 (by omega)

/-- Witness for C6: with nothing on the page the call is an immediate no-op;
with a present locator whose condition never stops holding, the budget of 3
is exhausted and the timeout error names that locator. -/
theorem wait_for_negative_spec_witness :
    waitForNegative (fun _ _ => 0) (fun _ _ => true) "notvisible" 3
        [(By'.id, "a")] 0 = (Except.ok (), 0)
    ∧ waitForNegative (fun _ _ => 1) (fun _ _ => true) "notvisible" 3
        [(By'.id, "a")] 0
      = (Except.error (negTimeoutMsg (By'.id, "a") "notvisible"), 4) := by
  constructor
  · exact (wait_for_negative_spec (fun _ _ => 0) (fun _ _ => true) "notvisible" 3
      [(By'.id, "a")] 0).1 (fun l _ => rfl)
  · exact ((wait_for_negative_spec (fun _ _ => 1) (fun _ _ => true) "notvisible" 3
      [(By'.id, "a")] 0).2.2.1 (By'.id, "a") [] (by decide) (fun _ _ => rfl))

/-- C7 is false as stated: `get_next_alert` does not return the oldest alert
message verbatim — the injected reader replaces each newline in it by a
space, so an alert raised with `"a\nb"` is read back as `"a b"`. -/
theorem dialogs_alert_newline_ce :
    (get_next_alert (raise_alert "a\nb" (replace_dialogs true freshPage))).1
      = some "a b"
    ∧ (get_next_alert (raise_alert "a\nb" (replace_dialogs true freshPage))).1
      ≠ some "a\nb" := by
  exact ⟨rfl, by decide⟩

/-- C7 (amended): after `replace_dialogs` has run on a page, intercepted
dialog messages form per-page FIFO queues: each reader removes and returns
the oldest not-yet-read message of its kind in the order the dialogs were
raised — except that `get_next_alert` returns the oldest alert with each
newline replaced by a space; every reader returns `null` on a page where the
dialogs were never replaced; and calling `replace_dialogs` again on the same
page leaves the existing queues unchanged. -/
theorem dialogs_queue_spec (s : PageDialogs) :
    (s.replaced = true →
      get_next_alert s
        = ((s.alerts.head?).map replaceNL, { s with alerts := s.alerts.tail })
      ∧ get_next_confirm s
        = (s.confirms.head?, { s with confirms := s.confirms.tail })
      ∧ get_next_prompt s
        = (s.prompts.head?, { s with prompts := s.prompts.tail }))
    ∧ (s.replaced = false →
      get_next_alert s = (none, s)
      ∧ get_next_confirm s = (none, s)
      ∧ get_next_prompt s = (none, s))
    ∧ (s.replaced = true → ∀ act, replace_dialogs act s = s)
    ∧ (s.replaced = true → s.confirms = [] → ∀ m1 m2,
      (get_next_confirm (raise_confirm m2 (raise_confirm m1 s))).1 = some m1
      ∧ (get_next_confirm
          (get_next_confirm (raise_confirm m2 (raise_confirm m1 s))).2).1
        = some m2) := by
  obtain ⟨r, al, co, pr⟩ := s
  refine ⟨?_, ?_, ?_, ?_⟩
  · intro hr
    subst hr
    refine ⟨?_, ?_, ?_⟩
    · cases al with
      | nil => simp [get_next_alert]
      | cons m rest =>
        by_cases hm : m = ""
        · subst hm
          simp [get_next_alert, replaceNL]
        · simp [get_next_alert, hm]
    · cases co <;> simp [get_next_confirm]
    · cases pr <;> simp [get_next_prompt]
  · intro hr
    subst hr
    exact ⟨rfl, rfl, rfl⟩
  · intro hr act
    subst hr
    cases act <;> simp [replace_dialogs]
  · intro hr hc m1 m2
    subst hr
    subst hc
    simp [raise_confirm, get_next_confirm]

/-- Witness for C7 (amended): reading a confirm from a replaced page removes
and returns the oldest confirm message. -/
theorem dialogs_queue_spec_witness :
    get_next_confirm
        { replaced := true, alerts := ["x"], confirms := ["c1"], prompts := [] }
      = (some "c1",
        { replaced := true, alerts := ["x"], confirms := [], prompts := [] }) := by
  exact ((dialogs_queue_spec
    { replaced := true, alerts := ["x"], confirms := ["c1"], prompts := [] }).1
    rfl).2.1

end SeleniumExtras
